import Mathlib

/-!
Shallow embedding of the core of `Kepners/pcnestspeaker`:
`src/main/cast-daemon.py` (connection registry + command dispatcher) and
`src/main/cast-helper.py` (WebRTC signaling relay, multicast orchestrator,
group member resolver, fast volume path).

External effects (pychromecast discovery, socket probes, the MediaMTX
introspection API, wall-clock time) are supplied by explicit environment
records; machine floats of the source are modelled as `Rat` (all constants
involved — 0.0, 0.5, 1.0 — are exactly representable).
-/

namespace PCNest

/-- Single quote character, used in error strings such as
`Speaker 'X' not found`. -/
def squote : String := String.singleton (Char.ofNat 39)

/-- `ReceiverStatus` of a cast device (`cast.status` in pychromecast): the
fields the daemon reads. `None` models an unavailable status object. -/
structure CastStatus where
  volume_level : Rat
  volume_muted : Bool
deriving Repr, DecidableEq

/-- `cast.cast_info`: the discovery-time descriptor fields the code reads. -/
structure CastInfo where
  host : String
  model_name : String
  cast_type : String
deriving Repr, DecidableEq

/-- A pychromecast `Chromecast` object, restricted to the attributes the
repository reads. -/
structure Cast where
  name : String
  uuid : String
  cast_info : CastInfo
  status : Option CastStatus
deriving Repr, DecidableEq

/-- One entry of the daemon's `connections` dict:
`{ cast, browser, connected_at, ip }` (the browser object is modelled by
whether one is held). -/
structure Conn where
  cast : Cast
  hasBrowser : Bool
  connected_at : Nat
  ip : String
deriving Repr, DecidableEq

/-- The daemon's `connections` dict, `speaker_name -> entry`, modelled as an
association list with dict-style update semantics. -/
abbrev Registry := List (String × Conn)

/-- `speaker_name in connections` / `connections[speaker_name]`. -/
def lookupConn (st : Registry) (n : String) : Option Conn :=
  (st.find? (fun p => p.fst == n)).map Prod.snd

/-- `del connections[speaker_name]` (also a no-op lookup-miss delete). -/
def eraseConn (st : Registry) (n : String) : Registry :=
  st.filter (fun p => p.fst != n)

/-- `connections[speaker_name] = entry`: dict assignment. -/
def insertConn (st : Registry) (n : String) (c : Conn) : Registry :=
  eraseConn st n ++ [(n, c)]

/-- Number of entries stored under key `n`. -/
def countKey (st : Registry) (n : String) : Nat :=
  (st.filter (fun p => p.fst == n)).length

/-- The dict law: no key occurs twice. -/
def keysNodup (st : Registry) : Prop := (st.map Prod.fst).Nodup

/-- Outcome of one discovery round
(`pychromecast.get_listed_chromecasts` followed by `cast.wait`):
a device was found and became ready, no device matched, or an exception
occurred somewhere in the attempt. -/
inductive Discovered where
  | found (c : Cast)
  | notFound
  | failed (msg : String)
deriving Repr, DecidableEq

/-- The external world as seen by `cast-daemon.py`: liveness of a cached
socket (`cast.status` access succeeding), discovery outcomes (by speaker
name and optional IP hint), whether `cast.set_volume` raises, and the
current time. -/
structure DaemonEnv where
  probe : Cast → Bool
  discover : String → Option String → Discovered
  setVolumeErr : Cast → Rat → Option String
  now : Nat

/-- Result of `get_or_create_connection`: the returned cast (if any), the
registry afterwards, and how many discovery rounds were invoked (0 or 1). -/
structure GocResult where
  cast : Option Cast
  registry : Registry
  discoveries : Nat
deriving Repr, DecidableEq

/-- The creation half of `get_or_create_connection` (lines 71-112): run one
discovery round; on success cache the new entry, on miss or exception leave
the registry untouched and return `None`. -/
def create_connection (env : DaemonEnv) (st : Registry) (n : String)
    (ip : Option String) : GocResult :=
  match env.discover n ip with
  | .found c => ⟨some c, insertConn st n ⟨c, true, env.now, c.cast_info.host⟩, 1⟩
  | .notFound => ⟨none, st, 1⟩
  | .failed _ => ⟨none, st, 1⟩

/-- `get_or_create_connection(speaker_name, speaker_ip)` (lines 42-112):
reuse a cached connection when its status probe succeeds; otherwise evict
the dead entry and fall through to creation. -/
def get_or_create_connection (env : DaemonEnv) (st : Registry) (n : String)
    (ip : Option String) : GocResult :=
  match lookupConn st n with
  | some conn =>
      if env.probe conn.cast then ⟨some conn.cast, st, 0⟩
      else create_connection env (eraseConn st n) n ip
  | none => create_connection env st n ip

/-- One entry of the `status` command's `connections` array. -/
structure StatusEntry where
  name : String
  ip : String
  connected_at : Nat
  age_seconds : Nat
deriving Repr, DecidableEq

/-- A JSON response line of the daemon, as the union of the key sets the
handlers emit; `none` means the key is absent from the emitted object. -/
structure DaemonResponse where
  success : Bool
  error : Option String := none
  message : Option String := none
  volume : Option Rat := none
  muted : Option Bool := none
  ip : Option String := none
  speaker : Option String := none
  model : Option String := none
  running : Option Bool := none
  connections : Option (List StatusEntry) := none
  connection_count : Option Nat := none
deriving Repr, DecidableEq

/-- `f"Speaker '{speaker_name}' not found"`. -/
def speakerNotFound (n : String) : String :=
  "Speaker " ++ squote ++ n ++ squote ++ " not found"

/-- `set_volume(speaker_name, volume, speaker_ip)` (lines 115-131): clamp
the requested volume into [0, 1], obtain a connection, apply it. -/
def set_volume (env : DaemonEnv) (st : Registry) (n : String) (volume : Rat)
    (ip : Option String) : DaemonResponse × Registry :=
  let v := max 0 (min 1 volume)
  let r := get_or_create_connection env st n ip
  match r.cast with
  | none => ({ success := false, error := some (speakerNotFound n) }, r.registry)
  | some c =>
      match env.setVolumeErr c v with
      | some e => ({ success := false, error := some e }, r.registry)
      | none => ({ success := true, volume := some v }, r.registry)

/-- `get_volume(speaker_name, speaker_ip)` (lines 134-147): report the
device status's volume and mute state, with defaults 0.5 / False when the
status object is unavailable. -/
def get_volume (env : DaemonEnv) (st : Registry) (n : String)
    (ip : Option String) : DaemonResponse × Registry :=
  let r := get_or_create_connection env st n ip
  match r.cast with
  | none => ({ success := false, error := some (speakerNotFound n) }, r.registry)
  | some c =>
      let volume := match c.status with
        | some s => s.volume_level
        | none => (1 : Rat) / 2
      let muted := match c.status with
        | some s => s.volume_muted
        | none => false
      ({ success := true, volume := some volume, muted := some muted }, r.registry)

/-- `ping_speaker` (lines 150-168): connection test; the reported volume is
null when the status object is unavailable. -/
def ping_speaker (env : DaemonEnv) (st : Registry) (n : String)
    (ip : Option String) : DaemonResponse × Registry :=
  let r := get_or_create_connection env st n ip
  match r.cast with
  | none => ({ success := false, error := some (speakerNotFound n) }, r.registry)
  | some c =>
      ({ success := true, ip := some c.cast_info.host,
         volume := (c.status).map CastStatus.volume_level }, r.registry)

/-- `connect_speaker` (lines 171-186). -/
def connect_speaker (env : DaemonEnv) (st : Registry) (n : String)
    (ip : Option String) : DaemonResponse × Registry :=
  let r := get_or_create_connection env st n ip
  match r.cast with
  | none => ({ success := false, error := some (speakerNotFound n) }, r.registry)
  | some c =>
      ({ success := true, speaker := some n, ip := some c.cast_info.host,
         model := some c.cast_info.model_name }, r.registry)

/-- `disconnect_speaker` (lines 189-236): quit the app, play the chime,
drop the socket (external effects, every one individually guarded), then
delete the entry. -/
def disconnect_speaker (st : Registry) (n : String) : DaemonResponse × Registry :=
  match lookupConn st n with
  | some _ => ({ success := true }, eraseConn st n)
  | none => ({ success := true, message := some "Not connected" }, st)

/-- `get_status` (lines 239-256): observability view of the registry. -/
def get_status (env : DaemonEnv) (st : Registry) : DaemonResponse :=
  let active := st.map (fun p =>
    StatusEntry.mk p.fst p.snd.ip p.snd.connected_at (env.now - p.snd.connected_at))
  { success := true, running := some true, connections := some active,
    connection_count := some active.length }

/-- `cleanup_all` (lines 259-274): disconnect every cached cast and stop
every browser (guarded external effects), then `connections.clear()`. -/
def cleanup_all (_st : Registry) : Registry := []

/-- A parsed command object: `cmd_data.get` with the defaults the code
uses (`cmd` and `speaker` default to the empty string, `ip` to None,
`volume` to 0.5 at its use site). -/
structure Command where
  cmd : String := ""
  speaker : String := ""
  ip : Option String := none
  volume : Option Rat := none
deriving Repr, DecidableEq

/-- `process_command(cmd_data)` (lines 277-307). -/
def process_command (env : DaemonEnv) (st : Registry) (c : Command) :
    DaemonResponse × Registry :=
  if c.cmd == "set-volume" then
    set_volume env st c.speaker (c.volume.getD ((1 : Rat) / 2)) c.ip
  else if c.cmd == "get-volume" then get_volume env st c.speaker c.ip
  else if c.cmd == "ping" then ping_speaker env st c.speaker c.ip
  else if c.cmd == "connect" then connect_speaker env st c.speaker c.ip
  else if c.cmd == "disconnect" then disconnect_speaker st c.speaker
  else if c.cmd == "status" then (get_status env st, st)
  else if c.cmd == "quit" then
    ({ success := true, message := some "Daemon shutting down" }, cleanup_all st)
  else ({ success := false, error := some ("Unknown command: " ++ c.cmd) }, st)

/-- One line read from stdin, after `line.strip()` and `json.loads`:
blank (skipped), malformed JSON (the `JSONDecodeError` detail), or a
parsed command object. -/
inductive InputLine where
  | blank
  | malformed (detail : String)
  | parsed (c : Command)
deriving Repr, DecidableEq

/-- The `{"success": false, "error": f"Invalid JSON: {e}"}` response. -/
def invalidJsonResponse (d : String) : DaemonResponse :=
  { success := false, error := some ("Invalid JSON: " ++ d) }

/-- `main` (lines 310-345): the read loop. Returns the emitted response
lines in order and the registry when the process stops (the `finally:`
cleanup included). A parsed `quit` command answers and then breaks. -/
def daemon_loop (env : DaemonEnv) : Registry → List InputLine →
    List DaemonResponse × Registry
  | st, [] => ([], cleanup_all st)
  | st, InputLine.blank :: rest => daemon_loop env st rest
  | st, InputLine.malformed d :: rest =>
      let out := daemon_loop env st rest
      (invalidJsonResponse d :: out.fst, out.snd)
  | st, InputLine.parsed c :: rest =>
      let pr := process_command env st c
      if c.cmd == "quit" then ([pr.fst], cleanup_all pr.snd)
      else
        let out := daemon_loop env pr.snd rest
        (pr.fst :: out.fst, out.snd)

/-! ### cast-helper.py -/

/-- `listStartsWith hay pat`: `pat` is an initial segment of `hay`. -/
def listStartsWith : List Char → List Char → Bool
  | _, [] => true
  | [], _ :: _ => false
  | a :: as, b :: bs => a == b && listStartsWith as bs

/-- `listHasSub hay pat`: `pat` occurs contiguously inside `hay`. -/
def listHasSub : List Char → List Char → Bool
  | [], pat => pat.isEmpty
  | a :: as, pat => listStartsWith (a :: as) pat || listHasSub as pat

/-- Python's substring test `pat in hay`. -/
def strIn (pat hay : String) : Bool := listHasSub hay.toList pat.toList

/-- Default receiver application id (`AUDIO_APP_ID` in cast-helper.py). -/
def AUDIO_APP_ID : String := "4B876246"

/-- Outcome of `cast.start_app(receiver_app_id)`: success, or an exception
with its type name and message. -/
inductive StartAppOutcome where
  | ok
  | err (errType : String) (errMsg : String)
deriving Repr, DecidableEq

/-- One WebRTC session object from the MediaMTX
`/v3/webrtcsessions/list` endpoint: the fields the verifier reads. -/
structure Session where
  path : String
  bytesSent : Nat
deriving Repr, DecidableEq

/-- The external world as seen by `webrtc_launch`: the result of the direct
(known-hosts) connection attempt, of the fallback full discovery, of
`start_app`, and of each poll of the introspection API (`none` = the HTTP
request raised). -/
structure WebRTCEnv where
  discoverDirect : Option Cast
  discoverFull : Option Cast
  startApp : StartAppOutcome
  poll : Nat → Option (List Session)

/-- The device-finding preamble of `webrtc_launch` (lines 502-541): with an
IP hint try the direct connection first and fall back to full discovery;
without one go straight to discovery. -/
def findCast (env : WebRTCEnv) (ip : Option String) : Option Cast :=
  match ip with
  | some _ =>
      match env.discoverDirect with
      | some c => some c
      | none => env.discoverFull
  | none => env.discoverFull

/-- The `start_app` failure classifier shared by `webrtc_launch` (line 575)
and `webrtc_proxy_connect` (line 790):
`"RequestFailed" in error_type or "Failed to execute start app" in error_msg`. -/
def receiverUnsupported (errType errMsg : String) : Bool :=
  strIn "RequestFailed" errType || strIn "Failed to execute start app" errMsg

/-- One scan of the session list (lines 657-664): mark `connected` on a
session whose path contains the stream name, and stop at the first such
session with nonzero `bytesSent` (`data_flowing`). Returns the updated
`(connected, data_flowing)` pair. -/
def scanSessions (stream : String) : List Session → Bool → Bool × Bool
  | [], conn => (conn, false)
  | s :: rest, conn =>
      if strIn stream s.path then
        if s.bytesSent > 0 then (true, true)
        else scanSessions stream rest true
      else scanSessions stream rest conn

/-- Result of the verification loop: the persistent `connected` and
`data_flowing` flags and the number of poll attempts actually made. -/
structure VerifyResult where
  connected : Bool
  dataFlowing : Bool
  polls : Nat
deriving Repr, DecidableEq

/-- The bounded poll loop of lines 647-676, recursing on the remaining
attempts (`4 - attempt`): a raised API call is swallowed, `data_flowing`
breaks out early. -/
def verifyGo (poll : Nat → Option (List Session)) (stream : String) :
    Nat → Nat → Bool → VerifyResult
  | 0, _, conn => ⟨conn, false, 0⟩
  | remaining + 1, attempt, conn =>
      match poll attempt with
      | some sessions =>
          let sc := scanSessions stream sessions conn
          if sc.snd then ⟨sc.fst, true, 1⟩
          else
            let r := verifyGo poll stream remaining (attempt + 1) sc.fst
            ⟨r.connected, r.dataFlowing, r.polls + 1⟩
      | none =>
          let r := verifyGo poll stream remaining (attempt + 1) conn
          ⟨r.connected, r.dataFlowing, r.polls + 1⟩

/-- `for attempt in range(4)` with `connected = data_flowing = False`. -/
def verifyLoop (poll : Nat → Option (List Session)) (stream : String) :
    VerifyResult :=
  verifyGo poll stream 4 0 false

/-- `time.sleep(0.5)` between verification polls, in milliseconds. -/
def VERIFY_POLL_SLEEP_MS : Nat := 500

/-- A result dict of `webrtc_launch` / `webrtc_proxy_connect` /
`webrtc_launch_multicast`; `none` marks an absent key. -/
structure WebRTCResult where
  success : Bool
  error : Option String := none
  error_code : Option String := none
  fallback_available : Option Bool := none
  mode : Option String := none
  url : Option String := none
  message : Option String := none
  verified : Option Bool := none
  session_connected : Option Bool := none
  warning : Option String := none
deriving Repr, DecidableEq

/-- `webrtc_launch(speaker_name, https_url, speaker_ip, stream_name,
app_id)` (lines 488-708): find the device, relaunch the receiver app
(classifying start failures), send the URL, and verify the stream; every
verification outcome is reported with `success = True`. The
receiver-ready wait (lines 596-602) only logs and is not modelled. -/
def webrtc_launch (env : WebRTCEnv) (name : String) (https_url : Option String)
    (ip : Option String) (stream : String) (app_id : Option String) :
    WebRTCResult :=
  let _receiver_app_id := app_id.getD AUDIO_APP_ID
  match findCast env ip with
  | none => { success := false, error := some (speakerNotFound name) }
  | some _ =>
      match env.startApp with
      | .err ty msg =>
          if receiverUnsupported ty msg then
            { success := false, error := some msg,
              error_code := some "CUSTOM_RECEIVER_NOT_SUPPORTED",
              fallback_available := some true }
          else
            { success := false, error := some msg, error_code := some "UNKNOWN" }
      | .ok =>
          match https_url with
          | some u =>
              let v := verifyLoop env.poll stream
              { success := true, mode := some "webrtc", url := some u,
                message := some "Receiver launched with WebRTC URL",
                verified := some v.dataFlowing,
                session_connected := some v.connected,
                warning := if v.dataFlowing then none
                  else if v.connected then some "no_data" else some "no_session" }
          | none =>
              { success := true, mode := some "webrtc", url := some "none",
                message := some "Receiver launched with WebRTC URL",
                verified := some false, warning := some "no_url_provided" }

/-- The `start_app` failure branch of `webrtc_proxy_connect`
(lines 785-797): same unsupported classification, but other failures carry
no `error_code` key at all. -/
def proxy_start_failure (ty msg : String) : WebRTCResult :=
  if receiverUnsupported ty msg then
    { success := false, error := some msg,
      error_code := some "CUSTOM_RECEIVER_NOT_SUPPORTED",
      fallback_available := some true }
  else { success := false, error := some msg }

/-- A `{"name": ..., "error": ...}` entry of the multicast `failed` list. -/
structure FailedEntry where
  name : String
  error : String
deriving Repr, DecidableEq

/-- The aggregate result of `webrtc_launch_multicast`. -/
structure MulticastResult where
  success : Bool
  launched : List String
  failed : List FailedEntry
  total : Nat
  mode : String
deriving Repr, DecidableEq

/-- `speaker_ips[i] if speaker_ips and i < len(speaker_ips) else None`
(line 1513): empty or missing list and out-of-range index all yield `None`,
which is exactly the optional indexed lookup. -/
def ipAt (ips : Option (List String)) (i : Nat) : Option String :=
  match ips with
  | some l => l[i]?
  | none => none

/-- The per-speaker loop of `webrtc_launch_multicast` (lines 1512-1526),
recursing over the name list with its index; `launch` closes over the URL,
stream name and app id and stands for one `webrtc_launch` call. -/
def multicastGo (launch : String → Option String → WebRTCResult)
    (ips : Option (List String)) : Nat → List String →
    List String × List FailedEntry
  | _, [] => ([], [])
  | i, n :: rest =>
      let r := launch n (ipAt ips i)
      let out := multicastGo launch ips (i + 1) rest
      if r.success then (n :: out.fst, out.snd)
      else (out.fst, ⟨n, r.error.getD "Unknown error"⟩ :: out.snd)

/-- `webrtc_launch_multicast(speaker_names, ...)` (lines 1489-1540). -/
def webrtc_launch_multicast (launch : String → Option String → WebRTCResult)
    (names : List String) (ips : Option (List String)) : MulticastResult :=
  let out := multicastGo launch ips 0 names
  { success := out.fst.length > 0, launched := out.fst, failed := out.snd,
    total := names.length, mode := "multicast" }

/-- A `{name, ip, uuid, model}` member record of `get_group_members`. -/
structure MemberData where
  name : String
  ip : String
  uuid : String
  model : String
deriving Repr, DecidableEq

/-- The result dict of `get_group_members`. -/
structure GroupResult where
  success : Bool
  error : Option String := none
  group_name : Option String := none
  group_uuid : Option String := none
  members : List MemberData := []
  count : Option Nat := none
deriving Repr, DecidableEq

/-- The external world as seen by `get_group_members`: the device list of
one `pychromecast.get_chromecasts` pass, and the member UUID list the
MultizoneController reports for a group UUID. -/
structure GroupEnv where
  chromecasts : List Cast
  memberUuids : String → List String

/-- `cc.cast_info`, projected to a member record. -/
def toMemberData (cc : Cast) : MemberData :=
  ⟨cc.name, cc.cast_info.host, cc.uuid, cc.cast_info.model_name⟩

/-- `get_group_members(group_name)` (lines 1077-1183): find the group-kind
device, query its multizone member list, match UUIDs back to discovered
devices; if that yields nothing, fall back to every `audio`-kind device
sharing the group's host address. -/
def get_group_members (env : GroupEnv) (group_name : String) : GroupResult :=
  match env.chromecasts.find? (fun cc =>
      cc.name == group_name && cc.cast_info.cast_type == "group") with
  | none =>
      { success := false,
        error := some ("Group " ++ squote ++ group_name ++ squote ++ " not found") }
  | some group_cast =>
      let group_uuid := group_cast.uuid
      let member_uuids := env.memberUuids group_uuid
      let members := (env.chromecasts.filter
        (fun cc => member_uuids.contains cc.uuid)).map toMemberData
      let members :=
        if members.isEmpty then
          let group_ip := group_cast.cast_info.host
          (env.chromecasts.filter (fun cc =>
            cc.cast_info.host == group_ip && cc.cast_info.cast_type == "audio")).map
            toMemberData
        else members
      { success := true, group_name := some group_name,
        group_uuid := some group_uuid, members := members,
        count := some members.length }

/-- The discovery outcome feeding `set_volume_fast`: found cast, no match,
or a raised exception. -/
structure FastVolumeEnv where
  discover : Discovered

/-- `set_volume_fast(speaker_name, volume_level, speaker_ip)`
(lines 1813-1864): one clamped, discovery-backed volume set without the
daemon's cache. -/
def set_volume_fast (env : FastVolumeEnv) (n : String) (volume_level : Rat)
    (_ip : Option String) : DaemonResponse :=
  let v := max 0 (min 1 volume_level)
  match env.discover with
  | .found _ => { success := true, volume := some v }
  | .notFound => { success := false, error := some (speakerNotFound n) }
  | .failed msg => { success := false, error := some msg }

/-! ### Registry lemmas -/

theorem mem_eraseConn {st : Registry} {n : String} {p : String × Conn}
    (hp : p ∈ eraseConn st n) : p ∈ st ∧ p.fst ≠ n := by
  have h := List.mem_filter.mp hp
  exact ⟨h.1, by simpa using h.2⟩

theorem find?_eraseConn_self (st : Registry) (n : String) :
    (eraseConn st n).find? (fun p => p.fst == n) = none := by
  rw [List.find?_eq_none]
  intro p hp
  simpa using (mem_eraseConn hp).2

theorem lookupConn_eraseConn_self (st : Registry) (n : String) :
    lookupConn (eraseConn st n) n = none := by
  simp [lookupConn, find?_eraseConn_self]

theorem lookupConn_insertConn_self (st : Registry) (n : String) (c : Conn) :
    lookupConn (insertConn st n c) n = some c := by
  simp [lookupConn, insertConn, List.find?_append, find?_eraseConn_self,
    List.find?]

theorem countKey_eraseConn_self (st : Registry) (n : String) :
    countKey (eraseConn st n) n = 0 := by
  unfold countKey
  rw [List.length_eq_zero, List.filter_eq_nil_iff]
  intro p hp
  simpa using (mem_eraseConn hp).2

theorem countKey_insertConn_self (st : Registry) (n : String) (c : Conn) :
    countKey (insertConn st n c) n = 1 := by
  have h0 := countKey_eraseConn_self st n
  unfold countKey at h0 ⊢
  unfold insertConn
  rw [List.filter_append, List.length_append, h0]
  simp

theorem keysNodup_eraseConn {st : Registry} (h : keysNodup st) (n : String) :
    keysNodup (eraseConn st n) :=
  List.Nodup.sublist (List.Sublist.map Prod.fst (List.filter_sublist st)) h

theorem keysNodup_insertConn {st : Registry} (h : keysNodup st) (n : String)
    (c : Conn) : keysNodup (insertConn st n c) := by
  unfold keysNodup insertConn
  rw [List.map_append, List.nodup_append]
  refine ⟨keysNodup_eraseConn h n, List.nodup_singleton n, ?_⟩
  intro a ha hb
  obtain ⟨p, hp, rfl⟩ := List.mem_map.mp ha
  have hpn := (mem_eraseConn hp).2
  simp only [List.map_cons, List.map_nil, List.mem_singleton] at hb
  exact hpn hb

/-! ### Concrete fixtures for witnesses and counterexamples -/

/-- A healthy speaker with an available status object. -/
def cast0 : Cast :=
  ⟨"Living Room", "uuid-0", ⟨"192.168.1.10", "Nest Audio", "audio"⟩,
   some ⟨(1 : Rat) / 2, false⟩⟩

/-- A rediscovered speaker whose status object is unavailable. -/
def castNew : Cast :=
  ⟨"Living Room", "uuid-1", ⟨"192.168.1.20", "Nest Audio", "audio"⟩, none⟩

def conn0 : Conn := ⟨cast0, true, 100, "192.168.1.10"⟩

def reg0 : Registry := [("Living Room", conn0)]

/-- A world where every probe succeeds and discovery finds nothing. -/
def envLive : DaemonEnv :=
  ⟨fun _ => true, fun _ _ => Discovered.notFound, fun _ _ => none, 1000⟩

/-- A world where every probe fails and discovery finds `castNew`. -/
def envDead : DaemonEnv :=
  ⟨fun _ => false, fun _ _ => Discovered.found castNew, fun _ _ => none, 1000⟩

/-! ### Claims -/

/-- C1: for a device with a healthy cached handle, `get_or_create_connection`
returns the cached handle with the registry unchanged and no discovery
round, and two consecutive calls for that device invoke discovery at most
once (in fact zero times) across both calls. -/
theorem C1_fast_path_idempotent (env : DaemonEnv) (st : Registry) (n : String)
    (ip ip2 : Option String) (conn : Conn)
    (h1 : lookupConn st n = some conn) (h2 : env.probe conn.cast = true) :
    get_or_create_connection env st n ip = ⟨some conn.cast, st, 0⟩ ∧
    (get_or_create_connection env st n ip).discoveries +
      (get_or_create_connection env
        (get_or_create_connection env st n ip).registry n ip2).discoveries ≤ 1 := by
  have hg : ∀ iph, get_or_create_connection env st n iph = ⟨some conn.cast, st, 0⟩ := by
    intro iph
    unfold get_or_create_connection
    rw [h1]
    simp [h2]
  refine ⟨hg ip, ?_⟩
  rw [hg ip]
  simp [hg ip2]

/-- Witness for C1 at a concrete healthy cache. -/
theorem C1_fast_path_idempotent_witness :
    get_or_create_connection envLive reg0 "Living Room" none =
      ⟨some conn0.cast, reg0, 0⟩ ∧
    (get_or_create_connection envLive reg0 "Living Room" none).discoveries +
      (get_or_create_connection envLive
        (get_or_create_connection envLive reg0 "Living Room" none).registry
        "Living Room" none).discoveries ≤ 1 :=
  C1_fast_path_idempotent envLive reg0 "Living Room" none none conn0 rfl rfl

/-- C2: when the cached handle's liveness probe fails, `get_or_create_connection`
performs a creation (exactly one discovery round), the registry afterwards
holds at most one entry for the device name, key uniqueness is preserved,
and any entry now cached under that name is the freshly created
replacement, never the dead handle. -/
theorem C2_eviction_on_dead_probe (env : DaemonEnv) (st : Registry)
    (n : String) (ip : Option String) (conn : Conn)
    (h1 : lookupConn st n = some conn) (h2 : env.probe conn.cast = false) :
    (get_or_create_connection env st n ip).discoveries = 1 ∧
    countKey (get_or_create_connection env st n ip).registry n ≤ 1 ∧
    (keysNodup st → keysNodup (get_or_create_connection env st n ip).registry) ∧
    (∀ c, lookupConn (get_or_create_connection env st n ip).registry n = some c →
      ∃ cc, env.discover n ip = Discovered.found cc ∧
        c = ⟨cc, true, env.now, cc.cast_info.host⟩) := by
  have hg : get_or_create_connection env st n ip =
      create_connection env (eraseConn st n) n ip := by
    unfold get_or_create_connection
    rw [h1]
    simp [h2]
  rw [hg]
  unfold create_connection
  cases hd : env.discover n ip with
  | found c =>
      refine ⟨rfl, ?_, ?_, ?_⟩
      · simp [countKey_insertConn_self]
      · intro h
        exact keysNodup_insertConn (keysNodup_eraseConn h n) n _
      · intro c' hc'
        rw [lookupConn_insertConn_self] at hc'
        exact ⟨c, rfl, (Option.some_injective _ hc').symm⟩
  | notFound =>
      refine ⟨rfl, ?_, ?_, ?_⟩
      · simp [countKey_eraseConn_self]
      · intro h
        exact keysNodup_eraseConn h n
      · intro c' hc'
        rw [lookupConn_eraseConn_self] at hc'
        exact absurd hc' (by simp)
  | failed msg =>
      refine ⟨rfl, ?_, ?_, ?_⟩
      · simp [countKey_eraseConn_self]
      · intro h
        exact keysNodup_eraseConn h n
      · intro c' hc'
        rw [lookupConn_eraseConn_self] at hc'
        exact absurd hc' (by simp)

/-- Witness for C2 at a concrete dead cache. -/
theorem C2_eviction_on_dead_probe_witness :
    (get_or_create_connection envDead reg0 "Living Room" none).discoveries = 1 ∧
    countKey (get_or_create_connection envDead reg0 "Living Room" none).registry
      "Living Room" ≤ 1 ∧
    (keysNodup reg0 →
      keysNodup (get_or_create_connection envDead reg0 "Living Room" none).registry) ∧
    (∀ c, lookupConn
        (get_or_create_connection envDead reg0 "Living Room" none).registry
        "Living Room" = some c →
      ∃ cc, envDead.discover "Living Room" none = Discovered.found cc ∧
        c = ⟨cc, true, envDead.now, cc.cast_info.host⟩) :=
  C2_eviction_on_dead_probe envDead reg0 "Living Room" none conn0 rfl rfl

/-- C3 counterexample: two non-empty valid command lines where the first is
`{"cmd":"quit"}` yield one response line, not two — a `quit` breaks the
loop before later lines are read, so "for every sequence of N valid
command lines, exactly N response lines are emitted" fails as stated. -/
theorem C3_counterexample :
    (daemon_loop envLive []
      [InputLine.parsed { cmd := "quit" }, InputLine.parsed { cmd := "status" }]).fst.length ≠
    ([InputLine.parsed { cmd := "quit" }, InputLine.parsed { cmd := "status" }] :
      List InputLine).length := by
  decide

/-- C3 (amended): every malformed input line produces exactly the
`Invalid JSON` error response and the loop continues on the remaining
lines; every valid command line that is not `quit` produces exactly its
handler's response followed by the responses of the remaining lines; and a
sequence of N non-empty valid command lines none of which is `quit`
produces exactly N response lines, in command order. -/
theorem C3_dispatcher_resilience (env : DaemonEnv) :
    (∀ st d rest,
      daemon_loop env st (InputLine.malformed d :: rest) =
        (invalidJsonResponse d :: (daemon_loop env st rest).fst,
         (daemon_loop env st rest).snd)) ∧
    (∀ st c rest, c.cmd ≠ "quit" →
      daemon_loop env st (InputLine.parsed c :: rest) =
        ((process_command env st c).fst ::
          (daemon_loop env (process_command env st c).snd rest).fst,
         (daemon_loop env (process_command env st c).snd rest).snd)) ∧
    (∀ st lines, (∀ l ∈ lines, ∃ c, l = InputLine.parsed c ∧ c.cmd ≠ "quit") →
      (daemon_loop env st lines).fst.length = lines.length) := by
  have hstep : ∀ st (c : Command) rest, c.cmd ≠ "quit" →
      daemon_loop env st (InputLine.parsed c :: rest) =
        ((process_command env st c).fst ::
          (daemon_loop env (process_command env st c).snd rest).fst,
         (daemon_loop env (process_command env st c).snd rest).snd) := by
    intro st c rest h
    have hb : (c.cmd == "quit") = false := by simpa using h
    simp [daemon_loop, hb]
  refine ⟨fun st d rest => rfl, hstep, ?_⟩
  intro st lines h
  induction lines generalizing st with
  | nil => rfl
  | cons l rest ih =>
      obtain ⟨c, rfl, hc⟩ := h l (List.mem_cons_self l rest)
      rw [hstep st c rest hc]
      simp only [List.length_cons]
      exact congrArg Nat.succ
        (ih (process_command env st c).snd
          (fun l hl => h l (List.mem_cons_of_mem _ hl)))

/-- Witness for the amended C3 at a concrete two-command input. -/
theorem C3_dispatcher_resilience_witness :
    (daemon_loop envLive reg0
      [InputLine.parsed { cmd := "status" },
       InputLine.parsed { cmd := "ping", speaker := "Living Room" }]).fst.length = 2 := by
  have h := (C3_dispatcher_resilience envLive).2.2 reg0
    [InputLine.parsed { cmd := "status" },
     InputLine.parsed { cmd := "ping", speaker := "Living Room" }]
    (by
      intro l hl
      rcases List.mem_cons.mp hl with h1 | h2
      · exact ⟨{ cmd := "status" }, h1, by decide⟩
      · rcases List.mem_cons.mp h2 with h3 | h4
        · exact ⟨{ cmd := "ping", speaker := "Living Room" }, h3, by decide⟩
        · exact absurd h4 (List.not_mem_nil l))
  simpa using h

/-- C4: processing `{"cmd":"quit"}` clears every cached registry entry (a
status query of the resulting registry reports zero connections), answers
`{"success": true, "message": "Daemon shutting down"}`, and ends the read
loop — any remaining input lines are never answered. -/
theorem C4_quit_semantics (env : DaemonEnv) (st : Registry)
    (rest : List InputLine) :
    process_command env st { cmd := "quit" } =
      ({ success := true, message := some "Daemon shutting down" }, []) ∧
    (get_status env
      (process_command env st { cmd := "quit" }).snd).connection_count = some 0 ∧
    daemon_loop env st (InputLine.parsed { cmd := "quit" } :: rest) =
      ([{ success := true, message := some "Daemon shutting down" }], []) := by
  have h1 : process_command env st ({ cmd := "quit" } : Command) =
      ({ success := true, message := some "Daemon shutting down" }, []) := by
    simp [process_command, cleanup_all]
  refine ⟨h1, ?_, ?_⟩
  · rw [h1]
    rfl
  · simp [daemon_loop, h1, cleanup_all]

theorem multicastGo_spec (launch : String → Option String → WebRTCResult)
    (ips : Option (List String)) (names : List String) (i : Nat) :
    (multicastGo launch ips i names).fst.length +
      (multicastGo launch ips i names).snd.length = names.length ∧
    List.Sublist (multicastGo launch ips i names).fst names ∧
    List.Sublist ((multicastGo launch ips i names).snd.map FailedEntry.name)
      names := by
  induction names generalizing i with
  | nil => exact ⟨rfl, List.Sublist.refl _, List.Sublist.refl _⟩
  | cons n rest ih =>
      obtain ⟨ihl, ihs1, ihs2⟩ := ih (i + 1)
      simp only [multicastGo]
      cases hs : (launch n (ipAt ips i)).success
      · simp only [hs, Bool.false_eq_true, if_false]
        refine ⟨?_, List.Sublist.cons n ihs1, ?_⟩
        · simp only [List.length_cons]
          omega
        · simpa using List.Sublist.cons₂ n ihs2
      · simp only [hs, if_true]
        refine ⟨?_, List.Sublist.cons₂ n ihs1, List.Sublist.cons n ihs2⟩
        simp only [List.length_cons]
        omega

/-- C5: the multicast launch visits the device list in order, collecting an
outcome for every device (a per-device failure neither aborts nor skips
later devices): `launched.length + failed.length = total`, `total` is the
input length, `success` holds exactly when at least one device launched,
and both `launched` and the names of `failed` are in-order sublists of the
input list. -/
theorem C5_multicast_aggregation (launch : String → Option String → WebRTCResult)
    (names : List String) (ips : Option (List String)) :
    (webrtc_launch_multicast launch names ips).launched.length +
      (webrtc_launch_multicast launch names ips).failed.length =
      (webrtc_launch_multicast launch names ips).total ∧
    (webrtc_launch_multicast launch names ips).total = names.length ∧
    ((webrtc_launch_multicast launch names ips).success = true ↔
      0 < (webrtc_launch_multicast launch names ips).launched.length) ∧
    List.Sublist (webrtc_launch_multicast launch names ips).launched names ∧
    List.Sublist
      ((webrtc_launch_multicast launch names ips).failed.map FailedEntry.name)
      names := by
  obtain ⟨hl, hs1, hs2⟩ := multicastGo_spec launch ips names 0
  unfold webrtc_launch_multicast
  refine ⟨hl, rfl, ?_, hs1, hs2⟩
  simp [decide_eq_true_iff]

/-- C6: a `start_app` failure in the relay is classified by
`receiverUnsupported` (the device reporting no support for custom receiver
applications): when it holds the result carries
`error_code = CUSTOM_RECEIVER_NOT_SUPPORTED` and `fallback_available =
true`; any other start failure is `error_code = UNKNOWN` with no
`fallback_available` key (and the proxy variant likewise sets the
fallback flag only in the unsupported case). -/
theorem C6_receiver_unsupported (env : WebRTCEnv) (name : String)
    (url ip : Option String) (stream : String) (appid : Option String)
    (c : Cast) (ty msg : String)
    (hfind : findCast env ip = some c)
    (hstart : env.startApp = StartAppOutcome.err ty msg) :
    (receiverUnsupported ty msg = true →
      webrtc_launch env name url ip stream appid =
        { success := false, error := some msg,
          error_code := some "CUSTOM_RECEIVER_NOT_SUPPORTED",
          fallback_available := some true } ∧
      proxy_start_failure ty msg =
        { success := false, error := some msg,
          error_code := some "CUSTOM_RECEIVER_NOT_SUPPORTED",
          fallback_available := some true }) ∧
    (receiverUnsupported ty msg = false →
      webrtc_launch env name url ip stream appid =
        { success := false, error := some msg, error_code := some "UNKNOWN" } ∧
      proxy_start_failure ty msg = { success := false, error := some msg }) := by
  unfold webrtc_launch proxy_start_failure
  rw [hfind, hstart]
  constructor
  · intro h
    simp [h]
  · intro h
    simp [h]

/-- A world where `start_app` raises pychromecast's `RequestFailed`. -/
def envUnsup : WebRTCEnv :=
  ⟨some cast0, none, StartAppOutcome.err "RequestFailed" "boom", fun _ => none⟩

/-- A world where `start_app` raises some unrelated error. -/
def envOther : WebRTCEnv :=
  ⟨some cast0, none, StartAppOutcome.err "ValueError" "bad app id", fun _ => none⟩

/-- Witness for C6: both classification branches at concrete errors. -/
theorem C6_receiver_unsupported_witness :
    webrtc_launch envUnsup "Den TV" (some "https://u") (some "10.0.0.9")
        "pcaudio" none =
      { success := false, error := some "boom",
        error_code := some "CUSTOM_RECEIVER_NOT_SUPPORTED",
        fallback_available := some true } ∧
    webrtc_launch envOther "Den TV" (some "https://u") (some "10.0.0.9")
        "pcaudio" none =
      { success := false, error := some "bad app id",
        error_code := some "UNKNOWN" } := by
  constructor
  · exact ((C6_receiver_unsupported envUnsup "Den TV" (some "https://u")
      (some "10.0.0.9") "pcaudio" none cast0 "RequestFailed" "boom" rfl rfl).1
      (by decide)).1
  · exact ((C6_receiver_unsupported envOther "Den TV" (some "https://u")
      (some "10.0.0.9") "pcaudio" none cast0 "ValueError" "bad app id" rfl rfl).2
      (by decide)).1

theorem verifyGo_polls_le (poll : Nat → Option (List Session)) (stream : String) :
    ∀ (k a : Nat) (conn : Bool), (verifyGo poll stream k a conn).polls ≤ k := by
  intro k
  induction k with
  | zero => intro a conn; exact Nat.le_refl 0
  | succ m ih =>
      intro a conn
      simp only [verifyGo]
      cases poll a with
      | some sessions =>
          cases hf : (scanSessions stream sessions conn).snd
          · simp only [hf, Bool.false_eq_true, if_false]
            exact Nat.succ_le_succ (ih (a + 1) _)
          · simp only [hf, if_true]
            exact Nat.succ_le_succ (Nat.zero_le m)
      | none => exact Nat.succ_le_succ (ih (a + 1) conn)

/-- C7: when the relay reaches verification (device found, receiver
started, URL provided), the session-introspection endpoint is polled at
most 4 times at 500 ms spacing, the response always has `success = true`,
`verified` mirrors the bytes-flowing flag, and the only quality flags are
no flag (bytes flowing), `no_data` (session without bytes) and
`no_session` — never a failure response. -/
theorem C7_verify_outcomes (env : WebRTCEnv) (name u : String)
    (ip : Option String) (stream : String) (appid : Option String) (c : Cast)
    (hfind : findCast env ip = some c)
    (hstart : env.startApp = StartAppOutcome.ok) :
    (verifyLoop env.poll stream).polls ≤ 4 ∧
    VERIFY_POLL_SLEEP_MS = 500 ∧
    (webrtc_launch env name (some u) ip stream appid).success = true ∧
    (webrtc_launch env name (some u) ip stream appid).verified =
      some (verifyLoop env.poll stream).dataFlowing ∧
    ((webrtc_launch env name (some u) ip stream appid).warning = none ∨
     (webrtc_launch env name (some u) ip stream appid).warning = some "no_data" ∨
     (webrtc_launch env name (some u) ip stream appid).warning = some "no_session") ∧
    ((webrtc_launch env name (some u) ip stream appid).warning = none ↔
      (verifyLoop env.poll stream).dataFlowing = true) := by
  unfold webrtc_launch
  rw [hfind, hstart]
  refine ⟨verifyGo_polls_le env.poll stream 4 0 false, rfl, rfl, rfl, ?_, ?_⟩
  · cases h1 : (verifyLoop env.poll stream).dataFlowing
    · cases h2 : (verifyLoop env.poll stream).connected
      · simp [h1, h2]
      · simp [h1, h2]
    · simp [h1]
  · cases h1 : (verifyLoop env.poll stream).dataFlowing
    · cases h2 : (verifyLoop env.poll stream).connected
      · simp [h1, h2]
      · simp [h1, h2]
    · simp [h1]

/-- A world where the receiver starts and the first poll reports a session
with bytes flowing. -/
def envVerify : WebRTCEnv :=
  ⟨some cast0, none, StartAppOutcome.ok,
   fun _ => some [⟨"pcaudio", 4096⟩]⟩

/-- Witness for C7 at a concrete flowing session. -/
theorem C7_verify_outcomes_witness :
    (verifyLoop envVerify.poll "pcaudio").polls ≤ 4 ∧
    VERIFY_POLL_SLEEP_MS = 500 ∧
    (webrtc_launch envVerify "Living Room" (some "https://u") (some "10.0.0.9")
      "pcaudio" none).success = true ∧
    (webrtc_launch envVerify "Living Room" (some "https://u") (some "10.0.0.9")
      "pcaudio" none).verified =
      some (verifyLoop envVerify.poll "pcaudio").dataFlowing ∧
    ((webrtc_launch envVerify "Living Room" (some "https://u") (some "10.0.0.9")
      "pcaudio" none).warning = none ∨
     (webrtc_launch envVerify "Living Room" (some "https://u") (some "10.0.0.9")
      "pcaudio" none).warning = some "no_data" ∨
     (webrtc_launch envVerify "Living Room" (some "https://u") (some "10.0.0.9")
      "pcaudio" none).warning = some "no_session") ∧
    ((webrtc_launch envVerify "Living Room" (some "https://u") (some "10.0.0.9")
      "pcaudio" none).warning = none ↔
      (verifyLoop envVerify.poll "pcaudio").dataFlowing = true) :=
  C7_verify_outcomes envVerify "Living Room" "https://u" (some "10.0.0.9")
    "pcaudio" none cast0 rfl rfl

/-- Following the spec's words for the group-fallback claim: the spec's
device kinds are `individual | group`, so a discovered device is
individually addressable exactly when it is not a group. (The source
instead keeps only `cast_type == 'audio'` devices in the fallback.) -/
def specIndividuallyAddressable (cc : Cast) : Bool :=
  cc.cast_info.cast_type != "group"

/-- A Cast group entry discovered at 10.0.0.2. -/
def groupCast : Cast :=
  ⟨"Study group", "uuid-g", ⟨"10.0.0.2", "Google Cast Group", "group"⟩, none⟩

/-- A video-kind device (`cast_type = "cast"`) sharing the group's
address: individually addressable, but not audio-kind. -/
def tvCast : Cast :=
  ⟨"Den TV", "uuid-tv", ⟨"10.0.0.2", "Chromecast HD", "cast"⟩, none⟩

/-- A world whose member-list query yields nothing and whose discovery pass
found the group and a video device at the same address. -/
def groupEnvCex : GroupEnv := ⟨[groupCast, tvCast], fun _ => []⟩

/-- C8 counterexample: with an empty member-list result and a video-kind
(`cast_type = "cast"`) device sharing the group's address, the fallback
returns no members at all, not "every individually addressable device at
the group's address" — the source's fallback keeps only `audio`-kind
devices. -/
theorem C8_counterexample :
    (get_group_members groupEnvCex "Study group").success = true ∧
    (get_group_members groupEnvCex "Study group").members ≠
      ((groupEnvCex.chromecasts.filter (fun cc =>
        cc.cast_info.host == groupCast.cast_info.host &&
        specIndividuallyAddressable cc)).map toMemberData) := by
  constructor
  · rfl
  · decide

/-- C8 (amended): when the member-list query yields an empty result,
`get_group_members` succeeds and returns exactly the audio-kind
(`cast_type = "audio"`) devices discovered at the group's address. -/
theorem C8_group_fallback (env : GroupEnv) (gname : String) (g : Cast)
    (hfind : env.chromecasts.find? (fun cc =>
      cc.name == gname && cc.cast_info.cast_type == "group") = some g)
    (hempty : env.memberUuids g.uuid = []) :
    (get_group_members env gname).success = true ∧
    (∀ m, m ∈ (get_group_members env gname).members ↔
      ∃ cc, cc ∈ env.chromecasts ∧ cc.cast_info.host = g.cast_info.host ∧
        cc.cast_info.cast_type = "audio" ∧ m = toMemberData cc) := by
  unfold get_group_members
  rw [hfind]
  simp only [hempty, List.contains_nil, Bool.false_eq_true, List.filter_false,
    List.map_nil, List.isEmpty_nil, if_true]
  refine ⟨trivial, ?_⟩
  intro m
  constructor
  · intro hm
    obtain ⟨cc, hcc, rfl⟩ := List.mem_map.mp hm
    obtain ⟨h1, h2⟩ := List.mem_filter.mp hcc
    rw [Bool.and_eq_true, beq_iff_eq, beq_iff_eq] at h2
    exact ⟨cc, h1, h2.1, h2.2, rfl⟩
  · rintro ⟨cc, h1, h2, h3, rfl⟩
    exact List.mem_map.mpr
      ⟨cc, List.mem_filter.mpr ⟨h1, by simp [h2, h3]⟩, rfl⟩

/-- An audio speaker sharing the group's address. -/
def speakerAt2 : Cast :=
  ⟨"Study speaker", "uuid-s", ⟨"10.0.0.2", "Nest Audio", "audio"⟩, none⟩

/-- A world whose member-list query yields nothing and whose discovery pass
found the group and an audio speaker at the same address. -/
def groupEnvOk : GroupEnv := ⟨[groupCast, speakerAt2], fun _ => []⟩

/-- Witness for the amended C8: the audio speaker at the group's address is
reported as the sole member. -/
theorem C8_group_fallback_witness :
    (get_group_members groupEnvOk "Study group").success = true ∧
    (toMemberData speakerAt2 ∈ (get_group_members groupEnvOk "Study group").members ∧
      toMemberData tvCast ∉ (get_group_members groupEnvOk "Study group").members) := by
  have h := C8_group_fallback groupEnvOk "Study group" groupCast rfl rfl
  refine ⟨h.1, ?_, ?_⟩
  · exact (h.2 (toMemberData speakerAt2)).mpr
      ⟨speakerAt2, by decide, rfl, rfl, rfl⟩
  · intro hmem
    obtain ⟨cc, hcc, _, _, heq⟩ := (h.2 (toMemberData tvCast)).mp hmem
    rcases List.mem_cons.mp hcc with h1 | h2
    · exact absurd (h1 ▸ heq) (by decide)
    · rcases List.mem_cons.mp h2 with h3 | h4
      · exact absurd (h3 ▸ heq) (by decide)
      · exact absurd h4 (List.not_mem_nil cc)

/-- C9: for every rational volume input, `set_volume` clamps it into
[0, 1] before applying it, reports the clamped value (bounded on both
sides) in a success response rather than rejecting out-of-range input,
and `set_volume_fast` clamps identically. -/
theorem C9_volume_clamped (env : DaemonEnv) (st : Registry) (n : String)
    (v : Rat) (ip : Option String) (c : Cast)
    (hc : (get_or_create_connection env st n ip).cast = some c)
    (hok : env.setVolumeErr c (max 0 (min 1 v)) = none) :
    (set_volume env st n v ip).fst =
      { success := true, volume := some (max 0 (min 1 v)) } ∧
    (∀ x, (set_volume env st n v ip).fst.volume = some x → 0 ≤ x ∧ x ≤ 1) ∧
    set_volume_fast ⟨Discovered.found c⟩ n v ip =
      { success := true, volume := some (max 0 (min 1 v)) } := by
  have hmain : (set_volume env st n v ip).fst =
      { success := true, volume := some (max 0 (min 1 v)) } := by
    unfold set_volume
    simp only [hc, hok]
  refine ⟨hmain, ?_, rfl⟩
  intro x hx
  rw [hmain] at hx
  obtain rfl : max 0 (min 1 v) = x := by simpa using hx
  exact ⟨le_max_left 0 _, max_le zero_le_one (min_le_left 1 v)⟩

/-- Witness for C9: the out-of-range request 5/2 is clamped. -/
theorem C9_volume_clamped_witness :
    (set_volume envLive reg0 "Living Room" (5 / 2) none).fst =
      { success := true, volume := some (max 0 (min 1 (5 / 2 : Rat))) } ∧
    (∀ x, (set_volume envLive reg0 "Living Room" (5 / 2) none).fst.volume =
      some x → 0 ≤ x ∧ x ≤ 1) ∧
    set_volume_fast ⟨Discovered.found cast0⟩ "Living Room" (5 / 2) none =
      { success := true, volume := some (max 0 (min 1 (5 / 2 : Rat))) } :=
  C9_volume_clamped envLive reg0 "Living Room" (5 / 2) none cast0 rfl rfl

/-- C10: when the connected device's status object is unavailable,
`get_volume` still answers with success, fabricating volume 0.5 and
muted false. -/
theorem C10_default_volume (env : DaemonEnv) (st : Registry) (n : String)
    (ip : Option String) (c : Cast)
    (hc : (get_or_create_connection env st n ip).cast = some c)
    (hs : c.status = none) :
    (get_volume env st n ip).fst =
      { success := true, volume := some ((1 : Rat) / 2),
        muted := some false } := by
  unfold get_volume
  simp only [hc, hs]

/-- Witness for C10: a freshly discovered cast with no status object. -/
theorem C10_default_volume_witness :
    (get_volume envDead reg0 "Living Room" none).fst =
      { success := true, volume := some ((1 : Rat) / 2),
        muted := some false } :=
  C10_default_volume envDead reg0 "Living Room" none castNew rfl rfl

end PCNest
